import Mathlib

/-!
Shallow embedding of the LyrixChat query-resolution pipeline (`src/app.py`).

External collaborators (the generative language model, the lyrics-metadata
search API, the lyrics-page scrape, and the track-metadata API) are modelled
as oracle parameters, at the granularity of their documented request/response
contracts: each call either raises (an `Except.error` / error constructor) or
returns a well-formed response value.  The control flow of the Python
functions `get_enhanced_query`, `search_and_judge`, `scrape_lyrics`,
`search_spotify_track` and `handle_chat` is translated directly.
-/

namespace LyrixChat

/-- The `result` object inside a search hit returned by the lyrics-metadata
search endpoint (`app.py` uses `hit['result']` fields `url`, `title`,
`full_title`, `primary_artist.name`, `song_art_image_thumbnail_url`,
`header_image_thumbnail_url`).  Fields are optional, mirroring `dict.get`. -/
structure HitResult where
  url : Option String
  title : Option String
  full_title : Option String
  primary_artist_name : Option String
  song_art_image_thumbnail_url : Option String
  header_image_thumbnail_url : Option String
deriving Repr, DecidableEq, Inhabited

/-- One entry of `data['response']['hits']`: a `type` tag and a `result`
object (`app.py` lines 84-86). -/
structure Hit where
  type : Option String
  result : HitResult
deriving Repr, DecidableEq, Inhabited

/-- Python `str.strip()`: drop leading and trailing whitespace.  Defined
structurally over the character list so that it evaluates by kernel
reduction. -/
def pyStrip (s : String) : String :=
  ⟨((s.data.dropWhile Char.isWhitespace).reverse.dropWhile Char.isWhitespace).reverse⟩

/-- Python truthiness of `d.get(key)` for an optional string: truthy iff
present and non-empty. -/
def truthyOpt : Option String → Bool
  | none => false
  | some s => decide (s ≠ "")

/-- Python `a or b` for an optional string `a` and a string default `b`
(as in `best_hit.get(...) or ...` on line 134 and `spotify or genius`
on line 223). -/
def orElseStr (a : Option String) (b : String) : String :=
  match a with
  | some s => if s = "" then b else s
  | none => b

/-- `get_enhanced_query` (`app.py` lines 37-65): asks the model to clean up
the query; on success returns the model text stripped, on any exception
returns the user query unchanged.  The model call is the oracle `reply`. -/
def get_enhanced_query (user_query : String) (reply : Except Unit String) : String :=
  match reply with
  | .ok text => pyStrip text
  | .error _ => user_query

/-- Outcome of one search request to the lyrics-metadata endpoint for one
term: `error` covers any exception raised inside the per-term `try` block
(HTTP failure, `raise_for_status`, malformed payload); `ok` carries the
parsed hits list. -/
def SearchOracle : Type := String → Except Unit (List Hit)

/-- The per-term admission filter of `search_and_judge` (lines 84-86):
from the first 5 hits, keep those with `type == 'song'` and a truthy
`result.url`, as pairs `(url, result)` in response order. -/
def admittedOfResponse (hits : List Hit) : List (String × HitResult) :=
  (hits.take 5).filterMap fun h =>
    match h.result.url with
    | some u => if h.type = some "song" ∧ u ≠ "" then some (u, h.result) else none
    | none => none

/-- `search_terms = {original_query, enhanced_query}` (line 75): the set of
distinct terms, realised as a list in one admissible iteration order. -/
def searchTerms (original enhanced : String) : List String :=
  if original = enhanced then [original] else [original, enhanced]

/-- The terms for which a search request is actually issued: the loop body
skips falsy (empty) terms (`if not term: continue`, line 78). -/
def requestedTerms (original enhanced : String) : List String :=
  (searchTerms original enhanced).filter fun t => t ≠ ""

/-- The admitted `(url, result)` pairs contributed by one term: an erroring
request contributes nothing (the exception is caught and logged, lines
87-88). -/
def termAdmitted (search : SearchOracle) (term : String) : List (String × HitResult) :=
  match search term with
  | .ok hits => admittedOfResponse hits
  | .error _ => []

/-- All admitted `(url, result)` pairs, in processing order across the
requested terms. -/
def admittedPairs (original enhanced : String) (search : SearchOracle) :
    List (String × HitResult) :=
  ((requestedTerms original enhanced).map (termAdmitted search)).flatten

/-- `candidate_hits[url] = result` (line 86): Python-dict insertion into an
ordered association list — if the key is present its entry is replaced in
place, otherwise the pair is appended. -/
def dictInsert : List (String × HitResult) → String × HitResult → List (String × HitResult)
  | [], kv => [kv]
  | p :: rest, kv => if p.1 = kv.1 then kv :: rest else p :: dictInsert rest kv

/-- The `candidate_hits` dict built by the search phase of
`search_and_judge` (lines 76-86). -/
def candidateHits (original enhanced : String) (search : SearchOracle) :
    List (String × HitResult) :=
  (admittedPairs original enhanced search).foldl dictInsert []

/-- Dict lookup by key on the association list: the value of the first
entry carrying the key, if any. -/
def lookupKey : List (String × HitResult) → String → Option HitResult
  | [], _ => none
  | p :: rest, k => if p.1 = k then some p.2 else lookupKey rest k

/-- A JSON value that can sit in the `best_match_index` field of the judge
model's decision: an integer, a boolean (JSON `true`/`false`, which Python
compares and indexes like `1`/`0`), or anything else (string, float, list,
object — every such value either fails the truthiness test or raises on
comparison or indexing, which the `except` swallows). -/
inductive JVal
  | jint (n : Int)
  | jbool (b : Bool)
  | jother
deriving Repr, DecidableEq

/-- The JSON object parsed from the judge model's reply: the
`best_match_index` field, if present (`decision.get`, line 130). -/
structure JDecision where
  best_match_index : Option JVal
deriving Repr, DecidableEq

/-- Outcome of the judge-phase model call (lines 124-128): `err` when
`generate_content` raises; `reply none` when `json.loads` raises on the
cleaned text or the parsed value is not an object (so `.get` raises);
`reply (some d)` when a JSON object is parsed. -/
inductive ModelReply
  | err
  | reply (d : Option JDecision)
deriving Repr, DecidableEq

/-- The result dict built for the winning candidate (lines 134-135). -/
structure GeniusData where
  url : Option String
  title : Option String
  artist : Option String
  cover_art : String
deriving Repr, DecidableEq

/-- Line 134-135: assemble the returned dict from the chosen hit result,
with cover art falling back `song_art or header_image or ''`. -/
def geniusOf (r : HitResult) : GeniusData :=
  { url := r.url
    title := r.title
    artist := r.primary_artist_name
    cover_art := orElseStr r.song_art_image_thumbnail_url
      (orElseStr r.header_image_thumbnail_url "") }

/-- The judging phase of `search_and_judge` (lines 124-141): parse the
model's decision, and select `candidates[best_index - 1]` only when
`best_index` is truthy and `1 <= best_index <= len(candidates)`; every
other path (model exception, parse failure, absent field, falsy or
out-of-range index, non-integer value raising on comparison or indexing)
returns `none`. -/
def judgePhase (candidates : List HitResult) (reply : ModelReply) : Option GeniusData :=
  match reply with
  | .err => none
  | .reply none => none
  | .reply (some d) =>
    match d.best_match_index with
    | none => none
    | some (.jint n) =>
      if h : 1 ≤ n ∧ n ≤ candidates.length then
        some (geniusOf (candidates.get ⟨(n - 1).toNat, by omega⟩))
      else none
    | some (.jbool b) =>
      if h : b = true ∧ 1 ≤ candidates.length then
        some (geniusOf (candidates.get ⟨0, by omega⟩))
      else none
    | some .jother => none

/-- `search_and_judge` (lines 68-141): aggregate candidates over the
distinct search terms, return `None` when no candidates were found,
otherwise judge the candidate list (the dict's values). -/
def search_and_judge (original enhanced : String) (search : SearchOracle)
    (reply : ModelReply) : Option GeniusData :=
  let ch := candidateHits original enhanced search
  if ch = [] then none
  else judgePhase (ch.map Prod.snd) reply

/-- Outcome of fetching and parsing the lyrics page in `scrape_lyrics`
(lines 145-181): `err` when anything inside the `try` raises;
`noContainers` when no selector matches; `text s` when containers are
found and the regex cleanup yields `s` (before the final strip). -/
inductive ScrapeOutcome
  | err
  | noContainers
  | text (s : String)
deriving Repr, DecidableEq

/-- `scrape_lyrics` (lines 145-181). -/
def scrape_lyrics : ScrapeOutcome → String
  | .err => "Could not retrieve lyrics."
  | .noContainers => "Lyrics could not be scraped. The page structure may have changed."
  | .text s => pyStrip s

/-- Outcome of the track-metadata lookup in `search_spotify_track`
(lines 183-194): no client handle, an exception, no track found, or a
track with its album image urls, optional preview url and external url. -/
inductive SpotifyOutcome
  | noClient
  | err
  | noTrack
  | track (images : List String) (preview : Option String) (spotifyUrl : String)
deriving Repr, DecidableEq

/-- The dict returned by `search_spotify_track`. -/
structure SpotifyData where
  album_art : Option String
  preview_url : Option String
  spotify_url : Option String
deriving Repr, DecidableEq

/-- `search_spotify_track` (lines 183-194): `{}` on missing client, error
or no track; otherwise album art is the first album image if any. -/
def search_spotify_track : SpotifyOutcome → SpotifyData
  | .noClient => ⟨none, none, none⟩
  | .err => ⟨none, none, none⟩
  | .noTrack => ⟨none, none, none⟩
  | .track images preview url => ⟨images.head?, preview, some url⟩

/-- The outcomes of all external calls a single `/chat` request can make. -/
structure Oracles where
  enhanceReply : Except Unit String
  search : SearchOracle
  judgeReply : ModelReply
  scrape : ScrapeOutcome
  spotify : SpotifyOutcome

/-- The JSON payload returned by `handle_chat`: either
`{'type': 'error', 'content': ...}` or the `{'type': 'lyrics', ...}`
success payload (lines 207, 218, 225-233). -/
inductive ChatPayload
  | error (content : String)
  | lyrics (title artist : Option String) (content : String) (album_art : String)
      (preview_url : Option String) (spotify_url : Option String)
deriving Repr, DecidableEq

/-- `handle_chat` (lines 204-233): strip the message, reject the empty
message, enhance, search-and-judge, and on a winner assemble the success
payload (content falls back to `'Lyrics unavailable.'` when the scraped
lyrics are empty; album art prefers the track-metadata value). -/
def handle_chat (message : String) (o : Oracles) : ChatPayload :=
  let msg := pyStrip message
  if msg = "" then .error "Please enter a message!"
  else
    let enhanced := get_enhanced_query msg o.enhanceReply
    match search_and_judge msg enhanced o.search o.judgeReply with
    | none => .error ("Sorry, I couldn't find a confident match for '" ++ msg ++ "'.")
    | some g =>
      let lyricsText := scrape_lyrics o.scrape
      let sd := search_spotify_track o.spotify
      .lyrics g.title g.artist (if lyricsText = "" then "Lyrics unavailable." else lyricsText)
        (orElseStr sd.album_art g.cover_art) sd.preview_url sd.spotify_url

/-- The `album_art` field of a payload, when it is a success payload. -/
def albumArtField : ChatPayload → Option String
  | .error _ => none
  | .lyrics _ _ _ aa _ _ => some aa

/-! ### Concrete scenario data used by the witnesses -/

/-- A concrete well-formed search-hit result. -/
def sampleResult : HitResult :=
  ⟨some "https://genius.com/a", some "Song A", some "Song A by Artist",
    some "Artist", some "art", none⟩

/-- A concrete song-typed search hit. -/
def sampleHit : Hit := ⟨some "song", sampleResult⟩

/-- A search oracle returning one admissible hit for every term. -/
def sampleSearch : SearchOracle := fun _ => .ok [sampleHit]

/-- A search oracle failing every request. -/
def failSearch : SearchOracle := fun _ => .error ()

/-- Oracles for a failing run: every external call errors. -/
def failOracles : Oracles := ⟨.error (), failSearch, .err, .err, .err⟩

/-- Oracles for a successful run in which the judge picks candidate 1 and
the scraper raises. -/
def goodOracles : Oracles :=
  ⟨.error (), sampleSearch, .reply (some ⟨some (.jint 1)⟩), .err, .noTrack⟩

/-- Oracles for a successful run in which the track-metadata client
returns album art. -/
def spotifyOracles : Oracles :=
  ⟨.error (), sampleSearch, .reply (some ⟨some (.jint 1)⟩), .err,
    .track ["spotart"] none "spotify://s"⟩

/-! ### Helper lemmas about the ordered-dict model -/

theorem dictInsert_ne_nil (m : List (String × HitResult)) (kv : String × HitResult) :
    dictInsert m kv ≠ [] := by
  cases m with
  | nil => simp [dictInsert]
  | cons p rest =>
    simp only [dictInsert]
    split <;> simp

theorem foldl_dictInsert_ne_nil (l : List (String × HitResult))
    (m : List (String × HitResult)) (hm : m ≠ []) :
    List.foldl dictInsert m l ≠ [] := by
  induction l generalizing m with
  | nil => simpa using hm
  | cons x xs ih => exact ih (dictInsert m x) (dictInsert_ne_nil m x)

theorem foldl_dictInsert_nil_eq_nil_iff (l : List (String × HitResult)) :
    List.foldl dictInsert [] l = [] ↔ l = [] := by
  cases l with
  | nil => simp
  | cons x xs =>
    constructor
    · intro h
      exact absurd h
        (foldl_dictInsert_ne_nil xs (dictInsert [] x) (dictInsert_ne_nil [] x))
    · intro h
      exact absurd h (by simp)

theorem lookupKey_dictInsert (m : List (String × HitResult)) (kv : String × HitResult)
    (k : String) :
    lookupKey (dictInsert m kv) k = if kv.1 = k then some kv.2 else lookupKey m k := by
  induction m with
  | nil => simp [dictInsert, lookupKey]
  | cons p rest ih =>
    by_cases hp : p.1 = kv.1
    · rw [dictInsert, if_pos hp, lookupKey, lookupKey]
      by_cases hk : kv.1 = k
      · simp [hk]
      · have hpk : ¬ p.1 = k := fun h => hk (hp ▸ h)
        simp [hk, hpk]
    · rw [dictInsert, if_neg hp, lookupKey, lookupKey]
      by_cases hpk : p.1 = k
      · have hk : ¬ kv.1 = k := fun h => hp (hpk ▸ h.symm ▸ rfl)
        simp [hpk, hk]
      · simp [hpk, ih]

theorem lookupKey_append (a b : List (String × HitResult)) (k : String) :
    lookupKey (a ++ b) k = (lookupKey a k).or (lookupKey b k) := by
  induction a with
  | nil => simp [lookupKey]
  | cons p rest ih =>
    rw [List.cons_append, lookupKey, lookupKey]
    by_cases hp : p.1 = k
    · simp [hp]
    · simp [hp, ih]

theorem mem_keys_dictInsert (m : List (String × HitResult)) (kv : String × HitResult)
    (a : String) :
    a ∈ (dictInsert m kv).map Prod.fst ↔ a = kv.1 ∨ a ∈ m.map Prod.fst := by
  induction m with
  | nil => simp [dictInsert, eq_comm]
  | cons p rest ih =>
    by_cases hp : p.1 = kv.1
    · rw [dictInsert, if_pos hp]
      simp only [List.map_cons, List.mem_cons, ih]
      constructor
      · rintro (h | h)
        · exact Or.inl h
        · exact Or.inr (Or.inr h)
      · rintro (h | h | h)
        · exact Or.inl h
        · exact Or.inl (by rw [h, hp])
        · exact Or.inr h
    · rw [dictInsert, if_neg hp]
      simp only [List.map_cons, List.mem_cons, ih]
      tauto

theorem keys_nodup_dictInsert (m : List (String × HitResult)) (kv : String × HitResult)
    (h : (m.map Prod.fst).Nodup) : ((dictInsert m kv).map Prod.fst).Nodup := by
  induction m with
  | nil => simp [dictInsert]
  | cons p rest ih =>
    simp only [List.map_cons, List.nodup_cons] at h
    by_cases hp : p.1 = kv.1
    · rw [dictInsert, if_pos hp]
      simp only [List.map_cons, List.nodup_cons]
      exact ⟨by rw [← hp]; exact h.1, h.2⟩
    · rw [dictInsert, if_neg hp]
      simp only [List.map_cons, List.nodup_cons]
      refine ⟨?_, ih h.2⟩
      rw [mem_keys_dictInsert]
      rintro (hc | hc)
      · exact hp hc
      · exact h.1 hc

theorem keys_nodup_foldl_dictInsert (l : List (String × HitResult))
    (m : List (String × HitResult)) (h : (m.map Prod.fst).Nodup) :
    ((List.foldl dictInsert m l).map Prod.fst).Nodup := by
  induction l generalizing m with
  | nil => simpa using h
  | cons x xs ih => exact ih (dictInsert m x) (keys_nodup_dictInsert m x h)

theorem lookupKey_foldl_dictInsert (l : List (String × HitResult))
    (m : List (String × HitResult)) (k : String) :
    lookupKey (List.foldl dictInsert m l) k =
      (lookupKey l.reverse k).or (lookupKey m k) := by
  induction l generalizing m with
  | nil => simp [lookupKey]
  | cons x xs ih =>
    rw [List.foldl_cons, ih, List.reverse_cons, lookupKey_append,
      lookupKey_dictInsert]
    cases hfind : lookupKey xs.reverse k with
    | some p => simp
    | none =>
      by_cases hx : x.1 = k
      · simp [lookupKey, hx]
      · simp [lookupKey, hx]

/-! ### The claims -/

/-- Claim C1: for every non-empty candidate list, the judging phase of
`search_and_judge` never selects a candidate at an index outside
`[1, len(candidates)]`: the outcome is either the no-match outcome
(`none`) or some candidate of the list; and specifically a failed model
call, an unparsable reply, an absent `best_match_index` field, an index
`0`, and any out-of-range index all yield the no-match outcome.  No error
is propagated: `judgePhase` is a total function into `Option`. -/
theorem c1_judge_never_out_of_range (cs : List HitResult) (r : ModelReply) (h : cs ≠ []) :
    (judgePhase cs r = none ∨
      ∃ i, ∃ hi : i < cs.length, judgePhase cs r = some (geniusOf (cs.get ⟨i, hi⟩)))
    ∧ judgePhase cs .err = none
    ∧ judgePhase cs (.reply none) = none
    ∧ judgePhase cs (.reply (some ⟨none⟩)) = none
    ∧ judgePhase cs (.reply (some ⟨some (.jint 0)⟩)) = none
    ∧ (∀ n : Int, n < 1 ∨ (cs.length : Int) < n →
        judgePhase cs (.reply (some ⟨some (.jint n)⟩)) = none) := by
  refine ⟨?_, rfl, rfl, rfl, ?_, ?_⟩
  · cases r with
    | err => exact Or.inl rfl
    | reply d =>
      cases d with
      | none => exact Or.inl rfl
      | some dd =>
        cases hd : dd.best_match_index with
        | none => exact Or.inl (by simp [judgePhase, hd])
        | some v =>
          cases v with
          | jother => exact Or.inl (by simp [judgePhase, hd])
          | jint n =>
            by_cases hn : 1 ≤ n ∧ n ≤ (cs.length : Int)
            · refine Or.inr ⟨(n - 1).toNat, by omega, ?_⟩
              simp only [judgePhase, hd]
              rw [dif_pos hn]
            · exact Or.inl (by simp only [judgePhase, hd]; rw [dif_neg hn])
          | jbool b =>
            by_cases hb : b = true ∧ 1 ≤ cs.length
            · refine Or.inr ⟨0, by omega, ?_⟩
              simp only [judgePhase, hd]
              rw [dif_pos hb]
            · exact Or.inl (by simp only [judgePhase, hd]; rw [dif_neg hb])
  · simp only [judgePhase]
    rw [dif_neg]
    omega
  · intro n hn
    simp only [judgePhase]
    rw [dif_neg]
    omega

/-- Witness for C1 at a concrete non-empty candidate list and a failed
model call. -/
theorem c1_witness : judgePhase [sampleResult] .err = none :=
  (c1_judge_never_out_of_range [sampleResult] .err (by decide)).2.1

/-- Claim C2: the search phase of `search_and_judge` yields an empty
candidate dict if and only if every requested term's search either raised
(and was caught) or returned no admissible result; a failing term
contributes nothing rather than aborting the loop; and the empty dict is
the non-error terminal state on which `search_and_judge` returns the
no-match outcome for every judge reply. -/
theorem c2_aggregate_empty_iff (o e : String) (s : SearchOracle) :
    (candidateHits o e s = [] ↔
      ∀ t ∈ requestedTerms o e,
        (∃ err, s t = .error err) ∨ ∃ hits, s t = .ok hits ∧ admittedOfResponse hits = [])
    ∧ (∀ t err, s t = .error err → termAdmitted s t = [])
    ∧ (candidateHits o e s = [] → ∀ r, search_and_judge o e s r = none) := by
  refine ⟨?_, ?_, ?_⟩
  · rw [candidateHits, foldl_dictInsert_nil_eq_nil_iff, admittedPairs,
      List.flatten_eq_nil_iff]
    constructor
    · intro h t ht
      have hadm := h (termAdmitted s t) (List.mem_map_of_mem _ ht)
      cases hst : s t with
      | error err => exact Or.inl ⟨err, rfl⟩
      | ok hits =>
        refine Or.inr ⟨hits, rfl, ?_⟩
        simpa only [termAdmitted, hst] using hadm
    · intro h l hl
      rw [List.mem_map] at hl
      obtain ⟨t, ht, rfl⟩ := hl
      rcases h t ht with ⟨err, herr⟩ | ⟨hits, hok, hemp⟩
      · simp [termAdmitted, herr]
      · simp [termAdmitted, hok, hemp]
  · intro t err herr
    simp [termAdmitted, herr]
  · intro h r
    simp [search_and_judge, h]

/-- Witness for C2 at a concrete run in which every search request fails:
the aggregate is empty and `search_and_judge` returns the no-match
outcome. -/
theorem c2_witness : search_and_judge "a" "b" failSearch .err = none :=
  (c2_aggregate_empty_iff "a" "b" failSearch).2.2 (by decide) .err

/-- Claim C3: the candidate dict is de-duplicated by identity URL — its
keys are pairwise distinct, each URL occurs at most once, and looking up
any URL yields the value of the last admitted `(url, result)` pair with
that URL across both search-term responses (last-seen wins). -/
theorem c3_dedup_last_wins (o e : String) (s : SearchOracle) :
    ((candidateHits o e s).map Prod.fst).Nodup
    ∧ (∀ url, ((candidateHits o e s).map Prod.fst).count url ≤ 1)
    ∧ (∀ url, lookupKey (candidateHits o e s) url =
        lookupKey (admittedPairs o e s).reverse url) := by
  have hnd : ((candidateHits o e s).map Prod.fst).Nodup :=
    keys_nodup_foldl_dictInsert _ [] (by simp)
  refine ⟨hnd, fun url => List.nodup_iff_count_le_one.mp hnd url, fun url => ?_⟩
  rw [candidateHits, lookupKey_foldl_dictInsert]
  simp [lookupKey]

/-- Claim C4: aggregation iterates over the set of distinct search terms
`{original, enhanced}` — the term list has no duplicates, contains exactly
those two strings, and collapses to one search when they are equal — and
every admitted pair comes from the first 5 results of some requested
term's successful response, has `type = "song"` and carries a usable
(non-empty) identity URL. -/
theorem c4_distinct_terms_admission (o e : String) (s : SearchOracle) :
    (searchTerms o e).Nodup
    ∧ (o = e → searchTerms o e = [o])
    ∧ (∀ t, t ∈ searchTerms o e ↔ t = o ∨ t = e)
    ∧ (∀ url r, (url, r) ∈ admittedPairs o e s →
        ∃ t ∈ requestedTerms o e, ∃ hits, s t = .ok hits ∧
          ∃ h ∈ hits.take 5, h.type = some "song" ∧ h.result.url = some url ∧
            url ≠ "" ∧ r = h.result) := by
  refine ⟨?_, ?_, ?_, ?_⟩
  · by_cases he : o = e
    · simp [searchTerms, he]
    · simp [searchTerms, he]
  · intro he
    simp [searchTerms, he]
  · intro t
    by_cases he : o = e
    · subst he
      simp [searchTerms]
    · simp [searchTerms, he]
  · intro url r hmem
    rw [admittedPairs, List.mem_flatten] at hmem
    obtain ⟨l, hl, hpl⟩ := hmem
    rw [List.mem_map] at hl
    obtain ⟨t, ht, rfl⟩ := hl
    refine ⟨t, ht, ?_⟩
    cases hst : s t with
    | error err => simp [termAdmitted, hst] at hpl
    | ok hits =>
      refine ⟨hits, rfl, ?_⟩
      simp only [termAdmitted, hst] at hpl
      rw [admittedOfResponse, List.mem_filterMap] at hpl
      obtain ⟨h, hh, hsome⟩ := hpl
      refine ⟨h, hh, ?_⟩
      cases hu : h.result.url with
      | none => simp [hu] at hsome
      | some u =>
        simp only [hu] at hsome
        by_cases hc : h.type = some "song" ∧ u ≠ ""
        · rw [if_pos hc] at hsome
          simp only [Option.some.injEq, Prod.mk.injEq] at hsome
          obtain ⟨rfl, rfl⟩ := hsome
          exact ⟨hc.1, rfl, hc.2, rfl⟩
        · rw [if_neg hc] at hsome
          exact absurd hsome (by simp)

/-- Witness for C4: with identical raw and enhanced query only one search
term is iterated. -/
theorem c4_witness : searchTerms "a" "a" = ["a"] :=
  (c4_distinct_terms_admission "a" "a" failSearch).2.1 rfl

/-- Claim C5: if the model call inside `get_enhanced_query` raises, the
failure is not propagated and the raw query is returned unchanged. -/
theorem c5_enhance_fallback (q : String) (er : Unit) :
    get_enhanced_query q (.error er) = q := rfl

/-- Counterexample to claim C6 as stated: for the non-empty raw query
`"a"`, a model reply consisting of a single space yields the empty
string, because `get_enhanced_query` returns the stripped model text with
no emptiness check. -/
theorem c6_counterexample :
    "a" ≠ "" ∧ get_enhanced_query "a" (Except.ok " ") = "" := by
  constructor
  · decide
  · decide

/-- Claim C6 (amended): for every non-empty raw query,
`get_enhanced_query` returns either the model's stripped output (on a
successful call) or the raw query itself (on failure, which is then
non-empty); the result is empty only when the model call succeeds and its
output strips to the empty string. -/
theorem c6_enhance_nonempty_amended (q : String) (r : Except Unit String) (hq : q ≠ "") :
    (∀ er, r = .error er → get_enhanced_query q r = q ∧ get_enhanced_query q r ≠ "")
    ∧ (∀ t, r = .ok t → get_enhanced_query q r = pyStrip t)
    ∧ (get_enhanced_query q r = "" → ∃ t, r = .ok t ∧ pyStrip t = "") := by
  cases r with
  | error er =>
    refine ⟨fun x hx => ⟨rfl, hq⟩, fun t ht => ?_, fun hemp => absurd hemp hq⟩
    exact absurd ht (by simp)
  | ok t =>
    refine ⟨fun er her => absurd her (by simp), fun t' ht' => ?_,
      fun hemp => ⟨t, rfl, hemp⟩⟩
    injection ht' with hv
    rw [← hv]
    rfl

/-- Witness for C6 (amended) at a failing model call: the fallback is the
raw query and is non-empty. -/
theorem c6_witness :
    get_enhanced_query "a" (Except.error ()) = "a" ∧
      get_enhanced_query "a" (Except.error ()) ≠ "" :=
  (c6_enhance_nonempty_amended "a" (Except.error ()) (by decide)).1 () rfl

/-- Claim C10 (implicit): the aggregation loop skips empty search terms —
the empty string is never among the requested terms, with empty enhanced
query only the raw query is searched, and the aggregation outcome does
not depend on the search oracle's behaviour at the empty term. -/
theorem c10_skip_empty_terms (o e : String) (s t : SearchOracle) :
    ("" ∉ requestedTerms o e)
    ∧ (e = "" → o ≠ "" → requestedTerms o e = [o])
    ∧ ((∀ q, q ≠ "" → s q = t q) →
        admittedPairs o e s = admittedPairs o e t ∧
        candidateHits o e s = candidateHits o e t ∧
        ∀ r, search_and_judge o e s r = search_and_judge o e t r) := by
  refine ⟨?_, ?_, ?_⟩
  · intro hmem
    rw [requestedTerms, List.mem_filter] at hmem
    simpa using hmem.2
  · intro he ho
    subst he
    rw [requestedTerms, searchTerms, if_neg ho]
    simp [ho]
  · intro hagree
    have hpairs : admittedPairs o e s = admittedPairs o e t := by
      rw [admittedPairs, admittedPairs]
      congr 1
      apply List.map_congr_left
      intro q hq
      rw [requestedTerms, List.mem_filter] at hq
      have hne : q ≠ "" := by simpa using hq.2
      rw [termAdmitted, termAdmitted, hagree q hne]
    have hch : candidateHits o e s = candidateHits o e t := by
      rw [candidateHits, candidateHits, hpairs]
    exact ⟨hpairs, hch, fun r => by rw [search_and_judge, search_and_judge, hch]⟩

/-- Witness for C10: with an empty enhanced query only the raw query is
requested. -/
theorem c10_witness : requestedTerms "a" "" = ["a"] :=
  (c10_skip_empty_terms "a" "" failSearch sampleSearch).2.1 rfl (by decide)

/-- Claim C7: a message that is empty after stripping whitespace is
rejected with the user-input error payload, and the outcome does not
depend on any of the external collaborators — no external client affects
(or is needed for) the response. -/
theorem c7_empty_message_rejected (msg : String) (o o2 : Oracles)
    (h : pyStrip msg = "") :
    handle_chat msg o = .error "Please enter a message!"
    ∧ handle_chat msg o = handle_chat msg o2 := by
  constructor
  · simp [handle_chat, h]
  · simp [handle_chat, h]

/-- Witness for C7 at the whitespace-only message and two different
oracle bundles. -/
theorem c7_witness : handle_chat "  " failOracles = .error "Please enter a message!" :=
  (c7_empty_message_rejected "  " failOracles goodOracles (by decide)).1

/-- Claim C8: when the lyrics scraper raises for the selected candidate's
page, the resolved payload is still the success payload carrying the
selected candidate's title and artist, and its content is the defined
non-empty placeholder string. -/
theorem c8_scraper_failure_placeholder (msg : String) (o : Oracles) (g : GeniusData)
    (hjudge : search_and_judge (pyStrip msg)
        (get_enhanced_query (pyStrip msg) o.enhanceReply) o.search o.judgeReply = some g)
    (hmsg : pyStrip msg ≠ "")
    (hscrape : o.scrape = .err) :
    handle_chat msg o = .lyrics g.title g.artist "Could not retrieve lyrics."
        (orElseStr (search_spotify_track o.spotify).album_art g.cover_art)
        (search_spotify_track o.spotify).preview_url
        (search_spotify_track o.spotify).spotify_url
    ∧ "Could not retrieve lyrics." ≠ "" := by
  constructor
  · simp only [handle_chat, if_neg hmsg, hjudge, hscrape, scrape_lyrics]
    rw [if_neg (by decide : ¬("Could not retrieve lyrics." = ""))]
  · decide

/-- Witness for C8 at a concrete successful run whose scraper raises. -/
theorem c8_witness :
    handle_chat "q" goodOracles = .lyrics (geniusOf sampleResult).title
        (geniusOf sampleResult).artist "Could not retrieve lyrics."
        (orElseStr (search_spotify_track goodOracles.spotify).album_art
          (geniusOf sampleResult).cover_art)
        (search_spotify_track goodOracles.spotify).preview_url
        (search_spotify_track goodOracles.spotify).spotify_url
    ∧ "Could not retrieve lyrics." ≠ "" :=
  c8_scraper_failure_placeholder "q" goodOracles (geniusOf sampleResult)
    (by decide) (by decide) rfl

/-- Claim C9: in the assembled success payload the album-art field equals
the track-metadata client's album art whenever that client returned a
usable (non-empty) one, and otherwise equals the selected candidate's own
cover art. -/
theorem c9_album_art_preference (msg : String) (o : Oracles) (g : GeniusData)
    (hjudge : search_and_judge (pyStrip msg)
        (get_enhanced_query (pyStrip msg) o.enhanceReply) o.search o.judgeReply = some g)
    (hmsg : pyStrip msg ≠ "") :
    (∀ a, (search_spotify_track o.spotify).album_art = some a → a ≠ "" →
        albumArtField (handle_chat msg o) = some a)
    ∧ ((search_spotify_track o.spotify).album_art = none ∨
        (search_spotify_track o.spotify).album_art = some "" →
        albumArtField (handle_chat msg o) = some g.cover_art) := by
  have hpayload : handle_chat msg o = .lyrics g.title g.artist
      (if scrape_lyrics o.scrape = "" then "Lyrics unavailable." else scrape_lyrics o.scrape)
      (orElseStr (search_spotify_track o.spotify).album_art g.cover_art)
      (search_spotify_track o.spotify).preview_url
      (search_spotify_track o.spotify).spotify_url := by
    simp only [handle_chat, if_neg hmsg, hjudge]
  constructor
  · intro a ha hne
    rw [hpayload]
    simp [albumArtField, orElseStr, ha, hne]
  · intro hcase
    rw [hpayload]
    rcases hcase with hn | he
    · simp [albumArtField, orElseStr, hn]
    · simp [albumArtField, orElseStr, he]

/-- Witness for C9 at a concrete run in which the track-metadata client
returns album art: the payload carries that art. -/
theorem c9_witness :
    albumArtField (handle_chat "q" spotifyOracles) = some "spotart" :=
  (c9_album_art_preference "q" spotifyOracles (geniusOf sampleResult)
    (by decide) (by decide)).1 "spotart" (by decide) (by decide)

end LyrixChat
